import Mathlib

/-!
Shallow embedding of `psychopy/visual/form.py` (the `Form` questionnaire
widget): item import and validation, the single layout pass, the scroll
projector, the per-frame draw pass, and response aggregation.  Python
floats are modelled as rationals; Python exceptions are modelled with
`Except` over an explicit error type.  Text measurement (bounding boxes)
is an external collaborator and enters as a per-item height oracle.
-/

namespace PsyForm

instance exceptDecEq {ε α : Type} [DecidableEq ε] [DecidableEq α] :
    DecidableEq (Except ε α) := fun x y =>
  match x, y with
  | .error e, .error f => decidable_of_iff (e = f) (by simp)
  | .ok a, .ok b => decidable_of_iff (a = b) (by simp)
  | .error _, .ok _ => isFalse (fun h => Except.noConfusion h)
  | .ok _, .error _ => isFalse (fun h => Except.noConfusion h)

/-- Python's `str.lower()` on the ASCII strings the module compares. -/
def pyLower (s : String) : String := String.mk (s.data.map Char.toLower)

/-- The Python exceptions the module can raise, one constructor each:
`NameError` for bad field sets, `ValueError` for too few options,
`OSError` for a missing file, `TypeError` for an unsupported file format,
`UnboundLocalError` for the unassigned-variable failures in
`_setResponse`/`getRespHeight`, `ZeroDivisionError` for
`size[1]/(-virtualHeight)` at `virtualHeight = 0`, `ValueError` from
`min([])`, and `IndexError` for list indexing. -/
inductive FormError where
  | schemaError
  | valueOptionsError
  | fileNotFound
  | unsupportedFormat
  | unboundLocal
  | zeroDivision
  | emptyMin
  | indexError
deriving DecidableEq, Repr

/-- One form item: the values stored under the six survey fields of an
item dict. -/
structure Item where
  qText : String
  qWidth : ℚ
  aType : String
  aWidth : ℚ
  aOptions : List String
  aLayout : String
deriving DecidableEq, Repr

/-- A raw record passed to `importItems`: the key set of the dict
(`fields`) together with the item payload the keys map to. -/
structure RawRecord where
  fields : List String
  item : Item
deriving DecidableEq, Repr

/-- The required survey fields, in the order `importItems` lists them. -/
def surveyFields : List String :=
  ["aWidth", "aLayout", "qText", "aType", "qWidth", "aOptions"]

/-- Python `set(surveyFields) == set(fields)`. -/
def fieldsMatch (fields : List String) : Bool :=
  fields.all (fun f => surveyFields.contains f) &&
    surveyFields.all (fun f => fields.contains f)

/-- `_checkHeaders`: raises `NameError` unless the field sets agree. -/
def checkHeaders (fields : List String) : Except FormError Unit :=
  if fieldsMatch fields then .ok () else .error .schemaError

/-- `_checkOptions`: raises `ValueError` unless more than one option. -/
def checkOptions (options : List String) : Except FormError Unit :=
  if options.length > 1 then .ok () else .error .valueOptionsError

/-- Validation of one record, in the code's order: headers first, then
options. -/
def validateRecord (r : RawRecord) : Except FormError Unit :=
  match checkHeaders r.fields with
  | .error e => .error e
  | .ok _ => checkOptions r.item.aOptions

/-- The loop body of `importItems` over a list of dicts: validate each
record in input order, stopping at the first failure. -/
def validateAll : List RawRecord → Except FormError Unit
  | [] => .ok ()
  | r :: rs =>
    match validateRecord r with
    | .error e => .error e
    | .ok _ => validateAll rs

/-- `importItems` on a list of dicts: validate all records and return the
input unchanged. -/
def importItems (items : List RawRecord) : Except FormError (List RawRecord) :=
  match validateAll items with
  | .error e => .error e
  | .ok _ => .ok items

/-- `importItems` on a single dict: validate it and wrap it in a
singleton list. -/
def importSingleRecord (r : RawRecord) : Except FormError (List RawRecord) :=
  match validateRecord r with
  | .error e => .error e
  | .ok _ => .ok [r]

/-- A record satisfying both validation checks. -/
def GoodRecord (r : RawRecord) : Prop :=
  fieldsMatch r.fields = true ∧ r.item.aOptions.length > 1

instance (r : RawRecord) : Decidable (GoodRecord r) := by
  unfold GoodRecord; infer_instance

/-- Which pandas reader the file branch of `importItems` dispatches to. -/
inductive ImportBranch where
  | csvRead
  | excelRead
deriving DecidableEq, Repr

/-- Does `hay` start with `pat`? (List form of string comparison.) -/
def beginsWith : List Char → List Char → Bool
  | [], _ => true
  | _ :: _, [] => false
  | p :: ps, c :: cs => p == c && beginsWith ps cs

/-- Does `pat` occur as a contiguous sublist of the haystack? -/
def subOccurs (pat : List Char) : List Char → Bool
  | [] => beginsWith pat []
  | c :: rest => beginsWith pat (c :: rest) || subOccurs pat rest

/-- Python's `pat in s` substring test on strings. -/
def strContainsSub (s pat : String) : Bool :=
  subOccurs pat.data s.data

/-- The file branch of `importItems`: the filesystem existence check is
external, so it enters as the boolean `pathExists`; the format dispatch
tests substring containment (`'.csv' in items`, ...) on the path. -/
def importFromPath (path : String) (pathExists : Bool) :
    Except FormError ImportBranch :=
  if pathExists then
    if strContainsSub path ".csv" then .ok .csvRead
    else if strContainsSub path ".xlsx" || strContainsSub path ".xls" then
      .ok .excelRead
    else .error .unsupportedFormat
  else .error .fileNotFound

/-- Characters after the last dot, if any dot occurs. -/
def afterLastDot : List Char → Option (List Char)
  | [] => none
  | c :: rest =>
    match afterLastDot rest with
    | some e => some e
    | none => if c == '.' then some rest else none

/-- Stated from the claim's wording (C8): the file-name extension of a
path, i.e. the text after the last dot; empty when no dot occurs.  Used
only to compare the claim with `importFromPath`. -/
def specExtension (s : String) : String :=
  match afterLastDot s.data with
  | some e => String.mk e
  | none => ""

/-- The fixed form configuration (`size`, `pos`, `itemPadding`,
`textHeight`). -/
structure FormConfig where
  sizeW : ℚ
  sizeH : ℚ
  posX : ℚ
  posY : ℚ
  itemPadding : ℚ
  textHeight : ℚ
deriving DecidableEq, Repr

/-- `self.labelHeight = 0.02`. -/
def labelHeightConst : ℚ := 1/50

/-- `self.leftEdge = self.pos[0] - self.size[0]/2.0`. -/
def leftEdge (cfg : FormConfig) : ℚ := cfg.posX - cfg.sizeW / 2

/-- `self.rightEdge = self.pos[0] + self.size[0]/2.0`. -/
def rightEdge (cfg : FormConfig) : ℚ := cfg.posX + cfg.sizeW / 2

/-- `self.topEdge = self.pos[1] + self.size[1]/2.0`. -/
def topEdge (cfg : FormConfig) : ℚ := cfg.posY + cfg.sizeH / 2

/-- The style argument `_setResponse` passes to the external `Slider`
constructor: the rating/slider branch passes none (the widget default),
the choice branch passes `radio`; the scrollbar passes `slider`. -/
inductive SliderStyle where
  | defaultStyle
  | radio
  | sliderBar
deriving DecidableEq, Repr

/-- The arguments `_setResponse` hands the external `Slider` constructor,
plus the control's externally mutated response state (`rating`, `rt`),
which a fresh control reports as null. -/
structure Slider where
  posX : ℚ
  posY : ℚ
  sizeW : ℚ
  sizeH : ℚ
  ticks : Option (List ℚ)
  labels : List String
  labelHeight : ℚ
  style : SliderStyle
  flip : Bool
  rating : Option ℚ
  rt : Option ℚ
deriving DecidableEq, Repr

/-- The arguments `_setQuestion` hands the external `TextStim`
constructor, plus the position `_doLayout` assigns afterwards. -/
structure TextStim where
  text : String
  height : ℚ
  wrapWidth : ℚ
  posX : ℚ
  posY : ℚ
deriving DecidableEq, Repr

/-- `getRespHeight`: vertical layout gives one text height per option,
horizontal layout a single text height; any other `aLayout` leaves
`aHeight` unassigned, so the `return` raises `UnboundLocalError`. -/
def getRespHeight (cfg : FormConfig) (item : Item) : Except FormError ℚ :=
  if item.aLayout = "vert" then .ok (item.aOptions.length * cfg.textHeight)
  else if item.aLayout = "horiz" then .ok cfg.textHeight
  else .error .unboundLocal

/-- `_setResponse`: computes the position and `aHeight`, computes `aSize`
from `aLayout` (left unassigned for any other layout), then branches on
`aType.lower()`: rating/slider builds a continuous slider whose size
ignores `aSize`; choice builds a radio-style slider sized by `aSize`;
any other type leaves `resp` unassigned, raising `UnboundLocalError` at
the following append. -/
def setResponse (cfg : FormConfig) (item : Item) (questionPosY : ℚ) :
    Except FormError (Slider × ℚ) :=
  match getRespHeight cfg item with
  | .error e => .error e
  | .ok aHeight =>
    let respPosX := rightEdge cfg - item.aWidth * cfg.sizeW
    let aSize : Option (ℚ × ℚ) :=
      if item.aLayout = "horiz" then some (item.aWidth * cfg.sizeW, 3/100)
      else if item.aLayout = "vert" then some (3/100, aHeight)
      else none
    if pyLower item.aType = "rating" ∨ pyLower item.aType = "slider" then
      .ok ({ posX := respPosX, posY := questionPosY,
             sizeW := item.aWidth * cfg.sizeW, sizeH := 3/100,
             ticks := some [0, 1], labels := item.aOptions,
             labelHeight := labelHeightConst, style := .defaultStyle,
             flip := true, rating := none, rt := none }, aHeight)
    else if pyLower item.aType = "choice" then
      match aSize with
      | none => .error .unboundLocal
      | some sz =>
        .ok ({ posX := respPosX, posY := questionPosY,
               sizeW := sz.1, sizeH := sz.2,
               ticks := none, labels := item.aOptions,
               labelHeight := cfg.textHeight, style := .radio,
               flip := true, rating := none, rt := none }, aHeight)
    else .error .unboundLocal

/-- The mutable state `_doLayout` threads through its item loop. -/
structure LayoutState where
  virtualHeight : ℚ
  baseY : List ℚ
  questions : List TextStim
  responses : List Slider
deriving DecidableEq, Repr

/-- The state at the top of `_doLayout`: `virtualHeight = 0` and empty
accumulators. -/
def initLayoutState : LayoutState :=
  { virtualHeight := 0, baseY := [], questions := [], responses := [] }

/-- One iteration of the `_doLayout` loop for one item together with its
externally measured question height: position the question, build the
response, record the row's base Y, decrement `virtualHeight`. -/
def layoutStep (cfg : FormConfig) (st : LayoutState) (item : Item)
    (qHeight : ℚ) : Except FormError LayoutState :=
  let questionPosY := topEdge cfg + st.virtualHeight - qHeight/2 - cfg.itemPadding
  let question : TextStim :=
    { text := item.qText, height := cfg.textHeight,
      wrapWidth := item.qWidth * cfg.sizeW,
      posX := leftEdge cfg, posY := questionPosY }
  match setResponse cfg item questionPosY with
  | .error e => .error e
  | .ok ra =>
    .ok { virtualHeight := st.virtualHeight - (max ra.2 qHeight + cfg.itemPadding),
          baseY := st.baseY ++
            [st.virtualHeight - max ra.2 qHeight + ra.2/2 - cfg.textHeight],
          questions := st.questions ++ [question],
          responses := st.responses ++ [ra.1] }

/-- The `_doLayout` item loop over items paired with their measured
question heights. -/
def doLayout (cfg : FormConfig) :
    LayoutState → List (Item × ℚ) → Except FormError LayoutState
  | st, [] => .ok st
  | st, p :: rest =>
    match layoutStep cfg st p.1 p.2 with
    | .error e => .error e
    | .ok st' => doLayout cfg st' rest

/-- The form after `__init__`: the layout results plus the scrollbar
marker, which `_doLayout` initialises to 1 and the host's input loop
mutates afterwards. -/
structure Form where
  config : FormConfig
  baseY : List ℚ
  virtualHeight : ℚ
  questions : List TextStim
  responses : List Slider
  markerPos : ℚ
deriving DecidableEq, Repr

/-- `Form.__init__` for list input: import the items, run the single
layout pass with the given question-height measurements, set the
scrollbar marker to 1. -/
def mkForm (cfg : FormConfig) (raw : List RawRecord) (qHeights : List ℚ) :
    Except FormError Form :=
  match importItems raw with
  | .error e => .error e
  | .ok items =>
    match doLayout cfg initLayoutState ((items.map RawRecord.item).zip qHeights) with
    | .error e => .error e
    | .ok st =>
      .ok { config := cfg, baseY := st.baseY,
            virtualHeight := st.virtualHeight,
            questions := st.questions, responses := st.responses,
            markerPos := 1 }

/-- The host moving the scrollbar: only `markerPos` changes. -/
def setMarkerPos (f : Form) (m : ℚ) : Form := { f with markerPos := m }

/-- Python `min` over a list: `ValueError` on the empty list. -/
def pyMin : List ℚ → Except FormError ℚ
  | [] => .error .emptyMin
  | x :: xs => .ok (xs.foldl min x)

/-- `_getScrollOffet` (name as in the source). -/
def getScrollOffet (f : Form) : Except FormError ℚ :=
  let sizeOffset := (1 - f.markerPos) * (f.config.sizeH - f.config.itemPadding)
  match pyMin f.baseY with
  | .error e => .error e
  | .ok maxItemPos =>
    .ok (maxItemPos - f.markerPos * maxItemPos + sizeOffset)

/-- `_inRange` applied to a drawable's Y position: strictly below
`size[1]/2` and strictly above `-size[1]/2`. -/
def inRange (cfg : FormConfig) (posY : ℚ) : Bool :=
  decide (posY < cfg.sizeH / 2) && decide (-(cfg.sizeH / 2) < posY)

/-- A drawable's stored position. -/
def stimPos (q : TextStim) : ℚ × ℚ := (q.posX, q.posY)

/-- A slider's stored position. -/
def sliderPos (s : Slider) : ℚ × ℚ := (s.posX, s.posY)

/-- The inner loop of `draw` over one drawable group: for the drawable at
loop index `idx`, set its position to
`(old x, size[1]/2 + baseY[idx] - offset)` and draw it only when
`_inRange` holds; a missing `baseY` index is Python's `IndexError`.
Returns each drawable's new position and whether it was drawn. -/
def drawElements (cfg : FormConfig) (offset : ℚ) (baseY : List ℚ) :
    List (ℚ × ℚ) → Nat → Except FormError (List ((ℚ × ℚ) × Bool))
  | [], _ => .ok []
  | p :: rest, idx =>
    match baseY.get? idx with
    | none => .error .indexError
    | some b =>
      match drawElements cfg offset baseY rest (idx + 1) with
      | .error e => .error e
      | .ok tail =>
        .ok (((p.1, cfg.sizeH / 2 + b - offset),
              inRange cfg (cfg.sizeH / 2 + b - offset)) :: tail)

/-- What one call of `draw` does: whether the scrollbar was drawn, and
for each question and response drawable its updated position and whether
it was drawn. -/
structure DrawResult where
  scrollbarDrawn : Bool
  questionPass : List ((ℚ × ℚ) × Bool)
  responsePass : List ((ℚ × ℚ) × Bool)
deriving DecidableEq, Repr

/-- `Form.draw`: `fractionVisible = size[1]/(-virtualHeight)` raises
`ZeroDivisionError` when `virtualHeight = 0`; the scrollbar joins the
draw set iff `fractionVisible < 1`; then each drawable group is
repositioned and clipped (`_getScrollOffet` is evaluated inside the item
loop, hence never when there are no drawables). -/
def draw (f : Form) : Except FormError DrawResult :=
  if f.virtualHeight = 0 then .error .zeroDivision
  else
    let sbd := decide (f.config.sizeH / (-f.virtualHeight) < 1)
    if f.questions.isEmpty && f.responses.isEmpty then
      .ok { scrollbarDrawn := sbd, questionPass := [], responsePass := [] }
    else
      match getScrollOffet f with
      | .error e => .error e
      | .ok offset =>
        match drawElements f.config offset f.baseY (f.questions.map stimPos) 0 with
        | .error e => .error e
        | .ok qp =>
          match drawElements f.config offset f.baseY (f.responses.map sliderPos) 0 with
          | .error e => .error e
          | .ok rp =>
            .ok { scrollbarDrawn := sbd, questionPass := qp, responsePass := rp }

/-- The dictionary `getData` returns. -/
structure FormData where
  questions : List String
  ratings : List (Option ℚ)
  rt : List (Option ℚ)
deriving DecidableEq, Repr

/-- `Form.getData`: question texts, current ratings and response times,
pulled fresh from the stored drawables. -/
def getData (f : Form) : FormData :=
  { questions := f.questions.map TextStim.text,
    ratings := f.responses.map Slider.rating,
    rt := f.responses.map Slider.rt }

/-- `Form.formComplete`: `None not in self.getData()['ratings']`. -/
def formComplete (f : Form) : Bool :=
  !(decide (none ∈ (getData f).ratings))

/-- The answer height `getRespHeight` yields on the layouts it accepts,
as a total function. -/
def respHeightPure (cfg : FormConfig) (item : Item) : ℚ :=
  if item.aLayout = "vert" then item.aOptions.length * cfg.textHeight
  else cfg.textHeight

/-- An item whose `aLayout` and `aType` fall in the ranges the layout
pass handles. -/
def ValidItem (item : Item) : Prop :=
  (item.aLayout = "horiz" ∨ item.aLayout = "vert") ∧
    (pyLower item.aType = "rating" ∨ pyLower item.aType = "slider" ∨
      pyLower item.aType = "choice")

instance (item : Item) : Decidable (ValidItem item) := by
  unfold ValidItem; infer_instance

/-- Stated from the claim's wording (C5): the answer control's size as
the claim describes it, determined by `answerLayout` alone.  Used only to
compare the claim with `setResponse`. -/
def specAnswerSize (cfg : FormConfig) (item : Item) : ℚ × ℚ :=
  if item.aLayout = "horiz" then (item.aWidth * cfg.sizeW, 3/100)
  else (3/100, item.aOptions.length * cfg.textHeight)

/-- The item row's contribution to `virtualHeight`, summed over all rows:
`max(aHeight, qHeight) + itemPadding` per item. -/
def sumHeights (cfg : FormConfig) (L : List (Item × ℚ)) : ℚ :=
  (L.map (fun p => max (respHeightPure cfg p.1) p.2 + cfg.itemPadding)).sum

/-- The constructor's default configuration: `size=(.5,.5)`, `pos=(0,0)`,
`itemPadding=.05`, `textHeight=.03`. -/
def cfgC : FormConfig :=
  { sizeW := 1/2, sizeH := 1/2, posX := 0, posY := 0,
    itemPadding := 1/20, textHeight := 3/100 }

/-- The spec's scenario item: a two-option vertical choice. -/
def itemChoice : Item :=
  { qText := "Like cats?", qWidth := 7/10, aType := "choice",
    aWidth := 3/10, aOptions := ["Yes", "No"], aLayout := "vert" }

/-- `itemChoice` as a well-formed record. -/
def recChoice : RawRecord := { fields := surveyFields, item := itemChoice }

/-- The form `mkForm cfgC [recChoice] [1/10]` constructs (question height
measured as `1/10`). -/
def formC : Form :=
  { config := cfgC,
    baseY := [-1/10],
    virtualHeight := -3/20,
    questions := [{ text := "Like cats?", height := 3/100, wrapWidth := 7/20,
                    posX := -1/4, posY := 3/20 }],
    responses := [{ posX := 1/10, posY := 3/20, sizeW := 3/100, sizeH := 3/50,
                    ticks := none, labels := ["Yes", "No"], labelHeight := 3/100,
                    style := .radio, flip := true, rating := none, rt := none }],
    markerPos := 1 }

/-- What `draw formC` produces: no scrollbar (content fits), both
drawables repositioned and in range. -/
def resC : DrawResult :=
  { scrollbarDrawn := false,
    questionPass := [((-1/4, 3/20), true)],
    responsePass := [((1/10, 3/20), true)] }

/-- The form `mkForm cfgC [] []` constructs from the empty item list. -/
def emptyFormC : Form :=
  { config := cfgC, baseY := [], virtualHeight := 0, questions := [],
    responses := [], markerPos := 1 }

/-- A rating item laid out vertically: the input on which claim C5's
size rule fails. -/
def itemRatingVert : Item :=
  { qText := "q", qWidth := 7/10, aType := "rating", aWidth := 3/10,
    aOptions := ["a", "b", "c"], aLayout := "vert" }

/-- A record with the right fields but a single answer option. -/
def recOneOpt : RawRecord :=
  { fields := surveyFields,
    item := { qText := "q1", qWidth := 1, aType := "rating", aWidth := 1,
              aOptions := ["only"], aLayout := "horiz" } }

/-- A record whose field set is missing most required fields. -/
def recBadFields : RawRecord :=
  { fields := ["qText"],
    item := { qText := "q2", qWidth := 1, aType := "rating", aWidth := 1,
              aOptions := ["x", "y"], aLayout := "horiz" } }

/-- The mixed input on which claim C7's two error rules conflict: the
first record violates the option count, a later record the field set. -/
def mixedRecords : List RawRecord := [recOneOpt, recBadFields]

/-- A record `importItems` accepts whose `aType` no layout branch
handles. -/
def recBadType : RawRecord :=
  { fields := surveyFields,
    item := { qText := "q", qWidth := 1, aType := "textbox", aWidth := 1,
              aOptions := ["a", "b"], aLayout := "horiz" } }

theorem validateRecord_ok_iff (r : RawRecord) :
    validateRecord r = .ok () ↔ GoodRecord r := by
  unfold validateRecord checkHeaders checkOptions GoodRecord
  by_cases hf : fieldsMatch r.fields = true
  · by_cases ho : r.item.aOptions.length > 1 <;> simp [hf, ho]
  · simp [hf]

theorem validateAll_ok_iff : ∀ l : List RawRecord,
    validateAll l = .ok () ↔ ∀ r ∈ l, GoodRecord r
  | [] => by simp [validateAll]
  | r :: l => by
    rw [validateAll]
    cases hv : validateRecord r with
    | error e =>
      have hng : ¬ GoodRecord r := fun hg => by
        rw [(validateRecord_ok_iff r).mpr hg] at hv
        exact Except.noConfusion hv
      simp [hng]
    | ok u =>
      cases u
      have hg := (validateRecord_ok_iff r).mp hv
      simp [hg, validateAll_ok_iff l]

theorem validateAll_schemaError_iff : ∀ l : List RawRecord,
    validateAll l = .error .schemaError ↔
      ∃ pre x post, l = pre ++ x :: post ∧ (∀ y ∈ pre, GoodRecord y) ∧
        fieldsMatch x.fields = false
  | [] => by
    constructor
    · intro h
      simp [validateAll] at h
    · rintro ⟨pre, x, post, heq, -, -⟩
      cases pre <;> simp_all
  | r :: l => by
    rw [validateAll]
    by_cases hf : fieldsMatch r.fields = true
    · by_cases ho : r.item.aOptions.length > 1
      · have hg : GoodRecord r := ⟨hf, ho⟩
        rw [(validateRecord_ok_iff r).mpr hg]
        rw [validateAll_schemaError_iff l]
        constructor
        · rintro ⟨pre, x, post, heq, hpre, hx⟩
          refine ⟨r :: pre, x, post, by rw [heq]; rfl, ?_, hx⟩
          intro y hy
          rcases List.mem_cons.mp hy with hy | hy
          · exact hy ▸ hg
          · exact hpre y hy
        · rintro ⟨pre, x, post, heq, hpre, hx⟩
          cases pre with
          | nil =>
            obtain ⟨h1, h2⟩ := List.cons.injEq .. ▸ heq
            rw [← h1] at hx
            rw [hf] at hx
            exact absurd hx (by simp)
          | cons a pre =>
            obtain ⟨h1, h2⟩ := List.cons.injEq .. ▸ heq
            exact ⟨pre, x, post, h2, fun y hy => hpre y (List.mem_cons_of_mem a hy), hx⟩
      · have hv : validateRecord r = .error .valueOptionsError := by
          unfold validateRecord checkHeaders checkOptions
          simp [hf, ho]
        rw [hv]
        constructor
        · intro h
          simp at h
        · rintro ⟨pre, x, post, heq, hpre, hx⟩
          exfalso
          cases pre with
          | nil =>
            obtain ⟨h1, h2⟩ := List.cons.injEq .. ▸ heq
            rw [← h1, hf] at hx
            exact absurd hx (by simp)
          | cons a pre =>
            obtain ⟨h1, h2⟩ := List.cons.injEq .. ▸ heq
            have hgr : GoodRecord r := by
              rw [h1]; exact hpre a (List.mem_cons_self a pre)
            exact ho hgr.2
    · have hv : validateRecord r = .error .schemaError := by
        unfold validateRecord checkHeaders
        simp [hf]
      rw [hv]
      exact ⟨fun _ => ⟨[], r, l, rfl, by simp, by simpa using hf⟩, fun _ => rfl⟩

theorem validateAll_valueOptionsError_iff : ∀ l : List RawRecord,
    validateAll l = .error .valueOptionsError ↔
      ∃ pre x post, l = pre ++ x :: post ∧ (∀ y ∈ pre, GoodRecord y) ∧
        fieldsMatch x.fields = true ∧ ¬ x.item.aOptions.length > 1
  | [] => by
    constructor
    · intro h
      simp [validateAll] at h
    · rintro ⟨pre, x, post, heq, -, -⟩
      cases pre <;> simp_all
  | r :: l => by
    rw [validateAll]
    by_cases hf : fieldsMatch r.fields = true
    · by_cases ho : r.item.aOptions.length > 1
      · have hg : GoodRecord r := ⟨hf, ho⟩
        rw [(validateRecord_ok_iff r).mpr hg]
        rw [validateAll_valueOptionsError_iff l]
        constructor
        · rintro ⟨pre, x, post, heq, hpre, hx⟩
          refine ⟨r :: pre, x, post, by rw [heq]; rfl, ?_, hx⟩
          intro y hy
          rcases List.mem_cons.mp hy with hy | hy
          · exact hy ▸ hg
          · exact hpre y hy
        · rintro ⟨pre, x, post, heq, hpre, hx⟩
          cases pre with
          | nil =>
            obtain ⟨h1, h2⟩ := List.cons.injEq .. ▸ heq
            exact absurd (h1 ▸ ho) hx.2
          | cons a pre =>
            obtain ⟨h1, h2⟩ := List.cons.injEq .. ▸ heq
            exact ⟨pre, x, post, h2, fun y hy => hpre y (List.mem_cons_of_mem a hy), hx⟩
      · have hv : validateRecord r = .error .valueOptionsError := by
          unfold validateRecord checkHeaders checkOptions
          simp [hf, ho]
        rw [hv]
        exact ⟨fun _ => ⟨[], r, l, rfl, by simp, hf, ho⟩, fun _ => rfl⟩
    · have hv : validateRecord r = .error .schemaError := by
        unfold validateRecord checkHeaders
        simp [hf]
      rw [hv]
      constructor
      · intro h
        simp at h
      · rintro ⟨pre, x, post, heq, hpre, hx⟩
        exfalso
        cases pre with
        | nil =>
          obtain ⟨h1, h2⟩ := List.cons.injEq .. ▸ heq
          exact hf (h1 ▸ hx.1)
        | cons a pre =>
          obtain ⟨h1, h2⟩ := List.cons.injEq .. ▸ heq
          have hgr : GoodRecord r := by
            rw [h1]; exact hpre a (List.mem_cons_self a pre)
          exact hf hgr.1

theorem importItems_ok_iff (l : List RawRecord) :
    importItems l = .ok l ↔ ∀ r ∈ l, GoodRecord r := by
  unfold importItems
  cases hv : validateAll l with
  | error e =>
    constructor
    · intro h
      simp at h
    · intro h
      rw [(validateAll_ok_iff l).mpr h] at hv
      exact Except.noConfusion hv
  | ok u =>
    cases u
    have hall := (validateAll_ok_iff l).mp hv
    simpa using hall

theorem importItems_ok_shape {l l' : List RawRecord}
    (h : importItems l = .ok l') : l' = l := by
  unfold importItems at h
  cases hv : validateAll l with
  | error e => rw [hv] at h; exact Except.noConfusion h
  | ok u => rw [hv] at h; exact (Except.ok.injEq .. ▸ h).symm

theorem importItems_error_iff (l : List RawRecord) (e : FormError) :
    importItems l = .error e ↔ validateAll l = .error e := by
  unfold importItems
  cases hv : validateAll l with
  | error e' => simp
  | ok u => cases u; simp

theorem getRespHeight_ok_of_layout (cfg : FormConfig) (item : Item)
    (hl : item.aLayout = "horiz" ∨ item.aLayout = "vert") :
    getRespHeight cfg item = .ok (respHeightPure cfg item) := by
  unfold getRespHeight respHeightPure
  rcases hl with h | h <;>
    simp [h, show (("horiz" : String) = "vert") = False from by simp]

theorem getRespHeight_ok_inv (cfg : FormConfig) (item : Item) (aH : ℚ)
    (h : getRespHeight cfg item = .ok aH) :
    aH = respHeightPure cfg item ∧
      (item.aLayout = "horiz" ∨ item.aLayout = "vert") := by
  unfold getRespHeight at h
  unfold respHeightPure
  by_cases hv : item.aLayout = "vert"
  · rw [if_pos hv] at h
    injection h with h
    exact ⟨by rw [if_pos hv, h], Or.inr hv⟩
  · rw [if_neg hv] at h
    by_cases hh : item.aLayout = "horiz"
    · rw [if_pos hh] at h
      injection h with h
      exact ⟨by rw [if_neg hv, h], Or.inl hh⟩
    · rw [if_neg hh] at h
      exact Except.noConfusion h

theorem setResponse_rating_eq (cfg : FormConfig) (item : Item) (y : ℚ)
    (hl : item.aLayout = "horiz" ∨ item.aLayout = "vert")
    (ht : pyLower item.aType = "rating" ∨ pyLower item.aType = "slider") :
    setResponse cfg item y = .ok
      ({ posX := rightEdge cfg - item.aWidth * cfg.sizeW, posY := y,
         sizeW := item.aWidth * cfg.sizeW, sizeH := 3/100,
         ticks := some [0, 1], labels := item.aOptions,
         labelHeight := labelHeightConst, style := .defaultStyle,
         flip := true, rating := none, rt := none },
       respHeightPure cfg item) := by
  unfold setResponse
  rw [getRespHeight_ok_of_layout cfg item hl]
  simp only []
  rw [if_pos ht]

theorem setResponse_choice_eq (cfg : FormConfig) (item : Item) (y : ℚ)
    (hl : item.aLayout = "horiz" ∨ item.aLayout = "vert")
    (ht : pyLower item.aType = "choice") :
    setResponse cfg item y = .ok
      ({ posX := rightEdge cfg - item.aWidth * cfg.sizeW, posY := y,
         sizeW := (specAnswerSize cfg item).1,
         sizeH := (specAnswerSize cfg item).2,
         ticks := none, labels := item.aOptions,
         labelHeight := cfg.textHeight, style := .radio,
         flip := true, rating := none, rt := none },
       respHeightPure cfg item) := by
  have hnr : ¬ (pyLower item.aType = "rating" ∨ pyLower item.aType = "slider") := by
    rw [ht]; decide
  unfold setResponse
  rw [getRespHeight_ok_of_layout cfg item hl]
  simp only []
  rw [if_neg hnr, if_pos ht]
  rcases hl with h | h <;>
    simp [h, specAnswerSize, respHeightPure,
      show (("vert" : String) = "horiz") = False from by simp]

theorem setResponse_ok_of_valid (cfg : FormConfig) (item : Item) (y : ℚ)
    (hv : ValidItem item) :
    ∃ pr, setResponse cfg item y = .ok pr := by
  obtain ⟨hl, ht⟩ := hv
  rcases ht with h | h | h
  · exact ⟨_, setResponse_rating_eq cfg item y hl (Or.inl h)⟩
  · exact ⟨_, setResponse_rating_eq cfg item y hl (Or.inr h)⟩
  · exact ⟨_, setResponse_choice_eq cfg item y hl h⟩

theorem setResponse_ok_inv (cfg : FormConfig) (item : Item) (y : ℚ)
    (s : Slider) (aH : ℚ) (hok : setResponse cfg item y = .ok (s, aH)) :
    aH = respHeightPure cfg item ∧ s.rating = none := by
  unfold setResponse at hok
  cases hh : getRespHeight cfg item with
  | error e => rw [hh] at hok; exact Except.noConfusion hok
  | ok aH0 =>
    rw [hh] at hok
    obtain ⟨haH0, -⟩ := getRespHeight_ok_inv cfg item aH0 hh
    simp only [] at hok
    split at hok
    · injection hok with hok
      obtain ⟨hs, ha⟩ := Prod.mk.injEq .. ▸ hok
      exact ⟨by rw [← ha, haH0], by rw [← hs]⟩
    · split at hok
      · split at hok
        · exact Except.noConfusion hok
        · injection hok with hok
          obtain ⟨hs, ha⟩ := Prod.mk.injEq .. ▸ hok
          exact ⟨by rw [← ha, haH0], by rw [← hs]⟩
      · exact Except.noConfusion hok

theorem setResponse_bad (cfg : FormConfig) (item : Item) (y : ℚ)
    (hbad : (item.aLayout ≠ "horiz" ∧ item.aLayout ≠ "vert") ∨
      (pyLower item.aType ≠ "rating" ∧ pyLower item.aType ≠ "slider" ∧
        pyLower item.aType ≠ "choice")) :
    setResponse cfg item y = .error .unboundLocal := by
  by_cases hl : item.aLayout = "horiz" ∨ item.aLayout = "vert"
  · rcases hbad with ⟨h1, h2⟩ | ⟨t1, t2, t3⟩
    · rcases hl with h | h
      · exact absurd h h1
      · exact absurd h h2
    · unfold setResponse
      rw [getRespHeight_ok_of_layout cfg item hl]
      simp only []
      rw [if_neg (fun hc => hc.elim t1 t2), if_neg t3]
  · push_neg at hl
    unfold setResponse getRespHeight
    rw [if_neg hl.2, if_neg hl.1]

theorem layoutStep_ok_parts {cfg : FormConfig} {st st' : LayoutState}
    {item : Item} {qHeight : ℚ}
    (h : layoutStep cfg st item qHeight = .ok st') :
    st'.virtualHeight = st.virtualHeight -
      (max (respHeightPure cfg item) qHeight + cfg.itemPadding) ∧
    st'.questions.map TextStim.text =
      st.questions.map TextStim.text ++ [item.qText] ∧
    st'.baseY.length = st.baseY.length + 1 ∧
    st'.questions.length = st.questions.length + 1 ∧
    st'.responses.length = st.responses.length + 1 ∧
    (∀ s ∈ st'.responses, s ∈ st.responses ∨ s.rating = none) := by
  simp only [layoutStep] at h
  cases hsr : setResponse cfg item
      (topEdge cfg + st.virtualHeight - qHeight/2 - cfg.itemPadding) with
  | error e => rw [hsr] at h; exact Except.noConfusion h
  | ok ra =>
    rw [hsr] at h
    have hok : setResponse cfg item
        (topEdge cfg + st.virtualHeight - qHeight/2 - cfg.itemPadding) =
        .ok (ra.1, ra.2) := by rw [hsr]
    obtain ⟨hra, hrat⟩ := setResponse_ok_inv cfg item _ ra.1 ra.2 hok
    simp only [] at h
    injection h with h
    subst h
    refine ⟨by rw [hra], by simp, by simp, by simp, by simp, ?_⟩
    intro s hs
    rcases List.mem_append.mp hs with hs | hs
    · exact Or.inl hs
    · rcases List.mem_singleton.mp hs with rfl
      exact Or.inr hrat

theorem doLayout_inv (cfg : FormConfig) : ∀ (L : List (Item × ℚ))
    (st fin : LayoutState), doLayout cfg st L = .ok fin →
    fin.virtualHeight = st.virtualHeight - sumHeights cfg L ∧
    fin.questions.map TextStim.text =
      st.questions.map TextStim.text ++ L.map (fun p => p.1.qText) ∧
    fin.baseY.length = st.baseY.length + L.length ∧
    fin.questions.length = st.questions.length + L.length ∧
    fin.responses.length = st.responses.length + L.length ∧
    (∀ s ∈ fin.responses, s ∈ st.responses ∨ s.rating = none)
  | [], st, fin, h => by
    rw [doLayout] at h
    injection h with h
    subst h
    exact ⟨by simp [sumHeights], by simp, by simp, by simp, by simp,
      fun s hs => Or.inl hs⟩
  | p :: L, st, fin, h => by
    rw [doLayout] at h
    cases hstep : layoutStep cfg st p.1 p.2 with
    | error e => rw [hstep] at h; exact Except.noConfusion h
    | ok st' =>
      rw [hstep] at h
      obtain ⟨h1, h2, h3, h4, h5, h6⟩ := layoutStep_ok_parts hstep
      obtain ⟨i1, i2, i3, i4, i5, i6⟩ := doLayout_inv cfg L st' fin h
      have hsum : sumHeights cfg (p :: L) =
          (max (respHeightPure cfg p.1) p.2 + cfg.itemPadding) +
            sumHeights cfg L := by
        simp [sumHeights]
      refine ⟨?_, ?_, ?_, ?_, ?_, ?_⟩
      · rw [i1, h1, hsum]; ring
      · rw [i2, h2]; simp
      · rw [i3, h3]; simp; ring
      · rw [i4, h4]; simp; ring
      · rw [i5, h5]; simp; ring
      · intro s hs
        rcases i6 s hs with hs' | hs'
        · exact h6 s hs'
        · exact Or.inr hs'

theorem doLayout_ok_of_valid (cfg : FormConfig) : ∀ (L : List (Item × ℚ))
    (st : LayoutState), (∀ p ∈ L, ValidItem p.1) →
    ∃ fin, doLayout cfg st L = .ok fin
  | [], st, _ => ⟨st, rfl⟩
  | p :: L, st, hv => by
    obtain ⟨pr, hpr⟩ := setResponse_ok_of_valid cfg p.1
      (topEdge cfg + st.virtualHeight - p.2/2 - cfg.itemPadding)
      (hv p (List.mem_cons_self p L))
    obtain ⟨fin, hfin⟩ := doLayout_ok_of_valid cfg L
      { virtualHeight := st.virtualHeight -
          (max pr.2 p.2 + cfg.itemPadding),
        baseY := st.baseY ++
          [st.virtualHeight - max pr.2 p.2 + pr.2/2 - cfg.textHeight],
        questions := st.questions ++
          [{ text := p.1.qText, height := cfg.textHeight,
             wrapWidth := p.1.qWidth * cfg.sizeW,
             posX := leftEdge cfg,
             posY := topEdge cfg + st.virtualHeight - p.2/2 - cfg.itemPadding }],
        responses := st.responses ++ [pr.1] }
      (fun q hq => hv q (List.mem_cons_of_mem p hq))
    refine ⟨fin, ?_⟩
    rw [doLayout]
    have hstep : layoutStep cfg st p.1 p.2 = .ok
        { virtualHeight := st.virtualHeight -
            (max pr.2 p.2 + cfg.itemPadding),
          baseY := st.baseY ++
            [st.virtualHeight - max pr.2 p.2 + pr.2/2 - cfg.textHeight],
          questions := st.questions ++
            [{ text := p.1.qText, height := cfg.textHeight,
               wrapWidth := p.1.qWidth * cfg.sizeW,
               posX := leftEdge cfg,
               posY := topEdge cfg + st.virtualHeight - p.2/2 - cfg.itemPadding }],
          responses := st.responses ++ [pr.1] } := by
      simp only [layoutStep]
      rw [hpr]
    rw [hstep]
    exact hfin

theorem mkForm_ok_inv (cfg : FormConfig) (raw : List RawRecord)
    (qh : List ℚ) (f : Form) (h : mkForm cfg raw qh = .ok f) :
    importItems raw = .ok raw ∧
    ∃ st, doLayout cfg initLayoutState ((raw.map RawRecord.item).zip qh) = .ok st ∧
      f.config = cfg ∧ f.baseY = st.baseY ∧
      f.virtualHeight = st.virtualHeight ∧ f.questions = st.questions ∧
      f.responses = st.responses ∧ f.markerPos = 1 := by
  unfold mkForm at h
  cases him : importItems raw with
  | error e => rw [him] at h; exact Except.noConfusion h
  | ok items =>
    have hi : items = raw := importItems_ok_shape him
    subst hi
    rw [him] at h
    simp only [] at h
    cases hlay : doLayout cfg initLayoutState
        ((items.map RawRecord.item).zip qh) with
    | error e => rw [hlay] at h; exact Except.noConfusion h
    | ok st =>
      rw [hlay] at h
      injection h with h
      subst h
      exact ⟨rfl, st, rfl, rfl, rfl, rfl, rfl, rfl, rfl⟩

theorem mkForm_ok_of_valid (cfg : FormConfig) (raw : List RawRecord)
    (qh : List ℚ) (hgood : ∀ r ∈ raw, GoodRecord r)
    (hvalid : ∀ r ∈ raw, ValidItem r.item) :
    ∃ f, mkForm cfg raw qh = .ok f := by
  have him := (importItems_ok_iff raw).mpr hgood
  have hz : ∀ p ∈ (raw.map RawRecord.item).zip qh, ValidItem p.1 := by
    rintro ⟨a, b⟩ hp
    obtain ⟨ha, -⟩ := List.of_mem_zip hp
    obtain ⟨r, hr, rfl⟩ := List.mem_map.mp ha
    exact hvalid r hr
  obtain ⟨st, hst⟩ := doLayout_ok_of_valid cfg _ initLayoutState hz
  refine ⟨{ config := cfg, baseY := st.baseY,
            virtualHeight := st.virtualHeight, questions := st.questions,
            responses := st.responses, markerPos := 1 }, ?_⟩
  unfold mkForm
  rw [him]
  simp only []
  rw [hst]

theorem drawElements_get (cfg : FormConfig) (offset : ℚ) (baseY : List ℚ) :
    ∀ (ps : List (ℚ × ℚ)) (start : Nat) (out : List ((ℚ × ℚ) × Bool)),
      drawElements cfg offset baseY ps start = .ok out →
      ∀ (i : Nat) (p : ℚ × ℚ) (b : ℚ), ps.get? i = some p →
        baseY.get? (start + i) = some b →
        out.get? i = some ((p.1, cfg.sizeH/2 + b - offset),
          inRange cfg (cfg.sizeH/2 + b - offset))
  | [], _, _, _, i, p, b, hp, _ => by simp at hp
  | q :: ps, start, out, h, i, p, b, hp, hb => by
    rw [drawElements] at h
    cases hb0 : baseY.get? start with
    | none => rw [hb0] at h; exact Except.noConfusion h
    | some b0 =>
      rw [hb0] at h
      cases hrest : drawElements cfg offset baseY ps (start + 1) with
      | error e => rw [hrest] at h; exact Except.noConfusion h
      | ok tail =>
        rw [hrest] at h
        simp only [] at h
        injection h with h
        subst h
        cases i with
        | zero =>
          rw [Nat.add_zero] at hb
          rw [hb0] at hb
          injection hb with hb
          subst hb
          simp only [List.get?] at hp
          injection hp with hp
          subst hp
          rfl
        | succ j =>
          have hp' : ps.get? j = some p := by simpa [List.get?] using hp
          have hb' : baseY.get? (start + 1 + j) = some b := by
            rw [show start + 1 + j = start + (j + 1) from by omega]
            exact hb
          have hres := drawElements_get cfg offset baseY ps (start + 1)
            tail hrest j p b hp' hb'
          simpa [List.get?] using hres

theorem mkForm_formC_eq : mkForm cfgC [recChoice] [1/10] = .ok formC := by
  have h1 : pyLower "choice" = "choice" := by decide
  have e1 : (("choice" : String) = "rating") = False := by simp
  have e2 : (("choice" : String) = "slider") = False := by simp
  have e3 : (("vert" : String) = "horiz") = False := by simp
  norm_num [mkForm, importItems, validateAll, validateRecord, checkHeaders,
    checkOptions, fieldsMatch, surveyFields, recChoice, itemChoice, cfgC,
    doLayout, layoutStep, setResponse, getRespHeight, h1, e1, e2, e3,
    leftEdge, rightEdge, topEdge, labelHeightConst, initLayoutState, formC]

theorem draw_formC_eq : draw formC = .ok resC := by
  norm_num [draw, formC, cfgC, resC, getScrollOffet, pyMin, drawElements,
    inRange, stimPos, sliderPos]

theorem offset_formC_eq : getScrollOffet formC = .ok 0 := by
  norm_num [getScrollOffet, formC, cfgC, pyMin]

/-- Claim C1: for every valid item sequence (with its externally measured
question heights), construction succeeds and the form's `virtualHeight`
after the single layout pass equals the negated sum over the items of
`max(answer height, question height) + itemPadding`; in particular it is
`0` for the empty sequence. -/
theorem claim1_virtualHeight_sum (cfg : FormConfig) (raw : List RawRecord)
    (qh : List ℚ) (hgood : ∀ r ∈ raw, GoodRecord r)
    (hvalid : ∀ r ∈ raw, ValidItem r.item) (hlen : raw.length = qh.length) :
    ∃ f, mkForm cfg raw qh = .ok f ∧
      f.virtualHeight = -(sumHeights cfg ((raw.map RawRecord.item).zip qh)) ∧
      (raw = [] → f.virtualHeight = 0) := by
  obtain ⟨f, hf⟩ := mkForm_ok_of_valid cfg raw qh hgood hvalid
  obtain ⟨-, st, hst, -, -, hvh, -, -, -⟩ := mkForm_ok_inv cfg raw qh f hf
  obtain ⟨h1, -, -, -, -, -⟩ := doLayout_inv cfg _ _ _ hst
  refine ⟨f, hf, ?_, ?_⟩
  · rw [hvh, h1]
    simp [initLayoutState]
  · intro h
    subst h
    rw [hvh, h1]
    simp [initLayoutState, sumHeights]

/-- Witness for C1 at the concrete two-option choice item. -/
theorem claim1_witness :
    ∃ f, mkForm cfgC [recChoice] [1/10] = .ok f ∧
      f.virtualHeight =
        -(sumHeights cfgC (([recChoice].map RawRecord.item).zip [1/10])) ∧
      ([recChoice] = ([] : List RawRecord) → f.virtualHeight = 0) :=
  claim1_virtualHeight_sum cfgC [recChoice] [1/10] (by decide) (by decide) rfl

/-- Claim C2: whenever at least one base-Y position has been recorded, the
projector's offset at marker position 1 (top of scroll) is exactly 0. -/
theorem claim2_offset_zero_at_top (f : Form) (hne : f.baseY ≠ [])
    (hm : f.markerPos = 1) : getScrollOffet f = .ok 0 := by
  obtain ⟨x, xs, hx⟩ := List.exists_cons_of_ne_nil hne
  simp only [getScrollOffet, hx, hm, pyMin]
  norm_num

/-- Witness for C2 at the concrete one-item form. -/
theorem claim2_witness : getScrollOffet formC = .ok 0 :=
  claim2_offset_zero_at_top formC (by simp [formC]) rfl

/-- Claim C3 (the code contradicts it): the constructor's own docstring
example `Form(win, items=[])` builds successfully and `getData` and
`formComplete` work on the result, but every `draw()` call computes
`size[1]/(-virtualHeight)` with `virtualHeight = 0` and so raises
`ZeroDivisionError`, whatever the scrollbar marker position. -/
theorem claim3_empty_form_draw_divides_by_zero (m : ℚ) :
    mkForm cfgC [] [] = .ok emptyFormC ∧
    draw (setMarkerPos emptyFormC m) = .error .zeroDivision ∧
    getData emptyFormC = { questions := [], ratings := [], rt := [] } ∧
    formComplete emptyFormC = true :=
  ⟨rfl, by simp [draw, setMarkerPos, emptyFormC], rfl, rfl⟩

/-- Claim C4: in every successful draw pass, the drawable at index `i`
gets the new position `(stored x, size[1]/2 + baseY[i] - offset)` —
recorded whether or not it is drawn — and it is drawn exactly when that Y
lies strictly inside `(-size[1]/2, size[1]/2)`. -/
theorem claim4_draw_reposition_clip (f : Form) (res : DrawResult)
    (offset : ℚ) (i : Nat) (p : ℚ × ℚ) (b : ℚ)
    (hdraw : draw f = .ok res) (hoff : getScrollOffet f = .ok offset)
    (hq : (f.questions.map stimPos).get? i = some p)
    (hb : f.baseY.get? i = some b) :
    res.questionPass.get? i = some ((p.1, f.config.sizeH/2 + b - offset),
      inRange f.config (f.config.sizeH/2 + b - offset)) ∧
    (inRange f.config (f.config.sizeH/2 + b - offset) = true ↔
      (-(f.config.sizeH/2) < f.config.sizeH/2 + b - offset ∧
        f.config.sizeH/2 + b - offset < f.config.sizeH/2)) ∧
    (∀ q : ℚ × ℚ, (f.responses.map sliderPos).get? i = some q →
      res.responsePass.get? i = some ((q.1, f.config.sizeH/2 + b - offset),
        inRange f.config (f.config.sizeH/2 + b - offset))) := by
  simp only [draw] at hdraw
  by_cases hz : f.virtualHeight = 0
  · rw [if_pos hz] at hdraw
    exact Except.noConfusion hdraw
  · rw [if_neg hz] at hdraw
    by_cases he : (f.questions.isEmpty && f.responses.isEmpty) = true
    · rw [if_pos he] at hdraw
      simp [List.isEmpty_iff] at he
      rw [he.1] at hq
      simp at hq
    · rw [if_neg he] at hdraw
      cases hO : getScrollOffet f with
      | error e =>
        rw [hO] at hoff
        exact Except.noConfusion hoff
      | ok o =>
        rw [hO] at hoff
        injection hoff with hoff
        subst hoff
        rw [hO] at hdraw
        simp only [] at hdraw
        cases hQ : drawElements f.config o f.baseY (f.questions.map stimPos) 0 with
        | error e => rw [hQ] at hdraw; exact Except.noConfusion hdraw
        | ok qp =>
          rw [hQ] at hdraw
          cases hR : drawElements f.config o f.baseY (f.responses.map sliderPos) 0 with
          | error e => rw [hR] at hdraw; exact Except.noConfusion hdraw
          | ok rp =>
            rw [hR] at hdraw
            simp only [] at hdraw
            injection hdraw with hdraw
            subst hdraw
            have hb0 : f.baseY.get? (0 + i) = some b := by simpa using hb
            refine ⟨?_, ?_, ?_⟩
            · exact drawElements_get f.config o f.baseY _ 0 qp hQ i p b hq hb0
            · unfold inRange
              simp only [Bool.and_eq_true, decide_eq_true_eq]
              exact and_comm
            · intro q hq'
              exact drawElements_get f.config o f.baseY _ 0 rp hR i q b hq' hb0

/-- Witness for C4 at the concrete one-item form, index 0. -/
theorem claim4_witness :
    resC.questionPass.get? 0 =
      some ((((-1 : ℚ)/4, (3 : ℚ)/20).1, formC.config.sizeH/2 + (-1/10) - 0),
        inRange formC.config (formC.config.sizeH/2 + (-1/10) - 0)) ∧
    (inRange formC.config (formC.config.sizeH/2 + (-1/10) - 0) = true ↔
      (-(formC.config.sizeH/2) < formC.config.sizeH/2 + (-1/10) - 0 ∧
        formC.config.sizeH/2 + (-1/10) - 0 < formC.config.sizeH/2)) ∧
    (∀ q : ℚ × ℚ, (formC.responses.map sliderPos).get? 0 = some q →
      resC.responsePass.get? 0 =
        some ((q.1, formC.config.sizeH/2 + (-1/10) - 0),
          inRange formC.config (formC.config.sizeH/2 + (-1/10) - 0))) :=
  claim4_draw_reposition_clip formC resC 0 0 (-1/4, 3/20) (-1/10)
    draw_formC_eq offset_formC_eq (by simp [formC, stimPos]) (by simp [formC])

/-- Counterexample to claim C5 as stated: a rating-type answer laid out
vertically is sized `(answerWidth x formWidth, 0.03)` by the code, not the
layout-determined `(0.03, nOptions x textHeight)` the claim requires. -/
theorem claim5_counterexample :
    ∃ s, setResponse cfgC itemRatingVert 0 = .ok (s, 9/100) ∧
      (s.sizeW, s.sizeH) = ((3 : ℚ)/20, (3 : ℚ)/100) ∧
      specAnswerSize cfgC itemRatingVert = ((3 : ℚ)/100, (9 : ℚ)/100) ∧
      (s.sizeW, s.sizeH) ≠ specAnswerSize cfgC itemRatingVert := by
  have ht : pyLower itemRatingVert.aType = "rating" := by decide
  have hl : itemRatingVert.aLayout = "horiz" ∨ itemRatingVert.aLayout = "vert" :=
    Or.inr rfl
  refine ⟨{ posX := rightEdge cfgC - itemRatingVert.aWidth * cfgC.sizeW,
            posY := 0, sizeW := itemRatingVert.aWidth * cfgC.sizeW,
            sizeH := 3/100, ticks := some [0, 1],
            labels := itemRatingVert.aOptions,
            labelHeight := labelHeightConst, style := .defaultStyle,
            flip := true, rating := none, rt := none }, ?_, ?_, ?_, ?_⟩
  · rw [setResponse_rating_eq cfgC itemRatingVert 0 hl (Or.inl ht)]
    norm_num [respHeightPure, itemRatingVert, cfgC,
      show (("vert" : String) = "horiz") = False from by simp]
  · norm_num [itemRatingVert, cfgC]
  · norm_num [specAnswerSize, itemRatingVert, cfgC,
      show (("vert" : String) = "horiz") = False from by simp]
  · norm_num [specAnswerSize, itemRatingVert, cfgC,
      show (("vert" : String) = "horiz") = False from by simp]

/-- Claim C5 amended: position and style are as claimed (continuous
`[0,1]` slider with the options as labels for rating/slider, radio style
for choice), but only choice controls are sized by `answerLayout`; a
rating/slider control always gets `(answerWidth x formWidth, 0.03)`,
whatever the layout. -/
theorem claim5_answer_control (cfg : FormConfig) (item : Item) (y : ℚ)
    (hv : ValidItem item) :
    ∃ s, setResponse cfg item y = .ok (s, respHeightPure cfg item) ∧
      s.posX = rightEdge cfg - item.aWidth * cfg.sizeW ∧ s.posY = y ∧
      s.labels = item.aOptions ∧
      ((pyLower item.aType = "rating" ∨ pyLower item.aType = "slider") →
        s.ticks = some [0, 1] ∧ s.style = .defaultStyle ∧
        s.sizeW = item.aWidth * cfg.sizeW ∧ s.sizeH = 3/100) ∧
      (pyLower item.aType = "choice" →
        s.ticks = none ∧ s.style = .radio ∧
        (s.sizeW, s.sizeH) = specAnswerSize cfg item) := by
  obtain ⟨hl, ht⟩ := hv
  have hrs : (pyLower item.aType = "rating" ∨ pyLower item.aType = "slider") →
      ∃ s, setResponse cfg item y = .ok (s, respHeightPure cfg item) ∧
      s.posX = rightEdge cfg - item.aWidth * cfg.sizeW ∧ s.posY = y ∧
      s.labels = item.aOptions ∧
      ((pyLower item.aType = "rating" ∨ pyLower item.aType = "slider") →
        s.ticks = some [0, 1] ∧ s.style = .defaultStyle ∧
        s.sizeW = item.aWidth * cfg.sizeW ∧ s.sizeH = 3/100) ∧
      (pyLower item.aType = "choice" →
        s.ticks = none ∧ s.style = .radio ∧
        (s.sizeW, s.sizeH) = specAnswerSize cfg item) := by
    intro hrt
    refine ⟨_, setResponse_rating_eq cfg item y hl hrt, rfl, rfl, rfl,
      fun _ => ⟨rfl, rfl, rfl, rfl⟩, fun hc => absurd hc ?_⟩
    rcases hrt with h | h <;> rw [h] <;> decide
  rcases ht with h | h | h
  · exact hrs (Or.inl h)
  · exact hrs (Or.inr h)
  · refine ⟨_, setResponse_choice_eq cfg item y hl h, rfl, rfl, rfl,
      fun hrt => ?_, fun _ => ⟨rfl, rfl, rfl⟩⟩
    exfalso
    rcases hrt with h' | h' <;> rw [h] at h' <;> exact absurd h' (by decide)

/-- Witness for the amended C5 at the concrete choice item. -/
theorem claim5_witness :
    ∃ s, setResponse cfgC itemChoice 0 = .ok (s, respHeightPure cfgC itemChoice) ∧
      s.posX = rightEdge cfgC - itemChoice.aWidth * cfgC.sizeW ∧ s.posY = 0 ∧
      s.labels = itemChoice.aOptions ∧
      ((pyLower itemChoice.aType = "rating" ∨ pyLower itemChoice.aType = "slider") →
        s.ticks = some [0, 1] ∧ s.style = .defaultStyle ∧
        s.sizeW = itemChoice.aWidth * cfgC.sizeW ∧ s.sizeH = 3/100) ∧
      (pyLower itemChoice.aType = "choice" →
        s.ticks = none ∧ s.style = .radio ∧
        (s.sizeW, s.sizeH) = specAnswerSize cfgC itemChoice) :=
  claim5_answer_control cfgC itemChoice 0 (by decide)

/-- Claim C6: `formComplete` is true exactly when no aggregated rating is
the null-equivalent, it is a pure read of the form value, and on a freshly
constructed form with at least one (necessarily unanswered) control it is
false. -/
theorem claim6_formComplete (f : Form) (cfg : FormConfig)
    (raw : List RawRecord) (qh : List ℚ) (g : Form)
    (hg : mkForm cfg raw qh = .ok g) (hne : g.responses ≠ []) :
    (formComplete f = true ↔ ∀ r ∈ (getData f).ratings, r ≠ none) ∧
    formComplete g = false := by
  constructor
  · have hencode : formComplete f = true ↔ ¬ (none ∈ (getData f).ratings) := by
      simp [formComplete]
    rw [hencode]
    constructor
    · intro h r hr he
      exact h (he ▸ hr)
    · intro h hmem
      exact h none hmem rfl
  · obtain ⟨-, st, hst, -, -, -, -, hresp, -⟩ := mkForm_ok_inv cfg raw qh g hg
    obtain ⟨-, -, -, -, -, h6⟩ := doLayout_inv cfg _ _ _ hst
    obtain ⟨s0, hs0⟩ := List.exists_mem_of_ne_nil _ hne
    have h0 : s0.rating = none := by
      rcases h6 s0 (by rw [← hresp]; exact hs0) with h | h
      · simp [initLayoutState] at h
      · exact h
    have hmem : none ∈ (getData g).ratings := by
      simp only [getData]
      exact List.mem_map.mpr ⟨s0, hs0, h0⟩
    simp [formComplete, hmem]

/-- Witness for C6 at the concrete one-item form. -/
theorem claim6_witness :
    (formComplete formC = true ↔ ∀ r ∈ (getData formC).ratings, r ≠ none) ∧
    formComplete formC = false :=
  claim6_formComplete formC cfgC [recChoice] [1/10] formC mkForm_formC_eq
    (by simp [formC])

/-- Counterexample to claim C7 as stated: in `mixedRecords` some record's
field set is wrong, yet import fails with ValueError (the
ValueOptionsError), not NameError (the SchemaError), because the earlier
record's option count is checked first. -/
theorem claim7_counterexample :
    recBadFields ∈ mixedRecords ∧ fieldsMatch recBadFields.fields = false ∧
    importItems mixedRecords = .error .valueOptionsError ∧
    importItems mixedRecords ≠ .error .schemaError :=
  ⟨by simp [mixedRecords], by decide, by decide, by decide⟩

/-- Claim C7 amended: validation scans records in input order, field set
before option count, and fails with the first violated check's error:
SchemaError exactly when the first failing record has a wrong field set,
ValueOptionsError exactly when it has the right fields but at most one
option; with no violation the records are returned unchanged, and a single
record behaves as a one-element sequence. -/
theorem claim7_import_validation (items : List RawRecord) (r : RawRecord) :
    (importItems items = .ok items ↔ ∀ x ∈ items, GoodRecord x) ∧
    (importItems items = .error .schemaError ↔
      ∃ pre x post, items = pre ++ x :: post ∧ (∀ y ∈ pre, GoodRecord y) ∧
        fieldsMatch x.fields = false) ∧
    (importItems items = .error .valueOptionsError ↔
      ∃ pre x post, items = pre ++ x :: post ∧ (∀ y ∈ pre, GoodRecord y) ∧
        fieldsMatch x.fields = true ∧ ¬ x.item.aOptions.length > 1) ∧
    (importSingleRecord r = .ok [r] ↔ GoodRecord r) := by
  refine ⟨importItems_ok_iff items, ?_, ?_, ?_⟩
  · rw [importItems_error_iff]
    exact validateAll_schemaError_iff items
  · rw [importItems_error_iff]
    exact validateAll_valueOptionsError_iff items
  · unfold importSingleRecord
    cases hv : validateRecord r with
    | error e =>
      constructor
      · intro h
        simp at h
      · intro h
        rw [(validateRecord_ok_iff r).mpr h] at hv
        exact Except.noConfusion hv
    | ok u =>
      cases u
      simpa using (validateRecord_ok_iff r).mp hv

/-- Counterexample to claim C8 as stated: `a.csv.bak` has extension `bak`,
neither csv nor Excel, yet the import takes the csv branch instead of
raising the UnsupportedFormatError, because the code tests substring
containment of `.csv`, not the extension. -/
theorem claim8_counterexample :
    specExtension "a.csv.bak" = "bak" ∧
    specExtension "a.csv.bak" ≠ "csv" ∧ specExtension "a.csv.bak" ≠ "xlsx" ∧
    specExtension "a.csv.bak" ≠ "xls" ∧
    importFromPath "a.csv.bak" true = .ok .csvRead ∧
    importFromPath "a.csv.bak" true ≠ .error .unsupportedFormat := by
  decide

/-- Claim C8 amended: for every path, a missing path raises
FileNotFoundError; an existing path is dispatched by substring
containment rather than by extension — the csv branch is taken whenever
`.csv` occurs anywhere in the path, otherwise the Excel branch whenever
`.xlsx` or `.xls` occurs, and UnsupportedFormatError is raised exactly
when none of the three substrings occurs — in particular for a plain
`.txt` file name. -/
theorem claim8_import_path (path : String) :
    importFromPath path false = .error .fileNotFound ∧
    (strContainsSub path ".csv" = true →
      importFromPath path true = .ok .csvRead) ∧
    (strContainsSub path ".csv" = false →
      (strContainsSub path ".xlsx" = true ∨ strContainsSub path ".xls" = true) →
      importFromPath path true = .ok .excelRead) ∧
    (importFromPath path true = .error .unsupportedFormat ↔
      (strContainsSub path ".csv" = false ∧
        strContainsSub path ".xlsx" = false ∧
        strContainsSub path ".xls" = false)) := by
  refine ⟨rfl, ?_, ?_, ?_⟩
  · intro h1
    simp [importFromPath, h1]
  · intro h1 h2
    rcases h2 with h2 | h2 <;> simp [importFromPath, h1, h2]
  · by_cases h1 : strContainsSub path ".csv" = true
    · simp [importFromPath, h1]
    · rw [Bool.not_eq_true] at h1
      by_cases h2 : strContainsSub path ".xlsx" = true
      · simp [importFromPath, h1, h2]
      · rw [Bool.not_eq_true] at h2
        by_cases h3 : strContainsSub path ".xls" = true
        · simp [importFromPath, h1, h2, h3]
        · rw [Bool.not_eq_true] at h3
          simp [importFromPath, h1, h2, h3]

/-- Witness for the amended C8: a missing `.txt` and a missing `.csv`
path raise FileNotFoundError; an existing `.txt` path raises
UnsupportedFormatError; existing `.xlsx` and `.csv` paths take the Excel
and csv branches. -/
theorem claim8_witness :
    importFromPath "survey.txt" false = .error .fileNotFound ∧
    importFromPath "survey.txt" true = .error .unsupportedFormat ∧
    importFromPath "data.csv" false = .error .fileNotFound ∧
    importFromPath "data.csv" true = .ok .csvRead ∧
    importFromPath "report.xlsx" true = .ok .excelRead :=
  ⟨(claim8_import_path "survey.txt").1,
   (claim8_import_path "survey.txt").2.2.2.mpr (by decide),
   (claim8_import_path "data.csv").1,
   (claim8_import_path "data.csv").2.1 (by decide),
   (claim8_import_path "report.xlsx").2.2.1 (by decide) (Or.inl (by decide))⟩

/-- Claim C9: for every successful construction, `getData`'s question list
is exactly the imported question texts in input order. -/
theorem claim9_questions_order (cfg : FormConfig) (raw : List RawRecord)
    (qh : List ℚ) (f : Form) (hf : mkForm cfg raw qh = .ok f)
    (hlen : raw.length = qh.length) :
    (getData f).questions = raw.map (fun r => r.item.qText) := by
  obtain ⟨-, st, hst, -, -, -, hquest, -, -⟩ := mkForm_ok_inv cfg raw qh f hf
  obtain ⟨-, h2, -, -, -, -⟩ := doLayout_inv cfg _ _ _ hst
  have hgd : (getData f).questions = st.questions.map TextStim.text := by
    simp only [getData]
    rw [hquest]
  rw [hgd, h2]
  simp only [initLayoutState, List.map_nil, List.nil_append]
  have hfst : ((raw.map RawRecord.item).zip qh).map Prod.fst =
      raw.map RawRecord.item := by
    apply List.map_fst_zip
    rw [List.length_map, hlen]
  have hcomp : (((raw.map RawRecord.item).zip qh).map fun p => p.1.qText) =
      (((raw.map RawRecord.item).zip qh).map Prod.fst).map
        (fun i => i.qText) := by
    rw [List.map_map]
    rfl
  rw [hcomp, hfst, List.map_map]
  rfl

/-- Witness for C9 at the concrete one-item form. -/
theorem claim9_witness :
    (getData formC).questions = [recChoice].map (fun r => r.item.qText) :=
  claim9_questions_order cfgC [recChoice] [1/10] formC mkForm_formC_eq rfl

/-- Claim C10: import validation never inspects `aType` or `aLayout`, so a
record with the right field set and enough options but an unhandled
`aType` (case-insensitively) or `aLayout` imports fine; building a form
from it then fails inside the layout pass with the unassigned-variable
error. -/
theorem claim10_late_layout_failure (cfg : FormConfig) (r : RawRecord)
    (qh : ℚ) (hgood : GoodRecord r)
    (hbad : (r.item.aLayout ≠ "horiz" ∧ r.item.aLayout ≠ "vert") ∨
      (pyLower r.item.aType ≠ "rating" ∧ pyLower r.item.aType ≠ "slider" ∧
        pyLower r.item.aType ≠ "choice")) :
    importItems [r] = .ok [r] ∧
    mkForm cfg [r] [qh] = .error .unboundLocal := by
  have him : importItems [r] = .ok [r] := by
    refine (importItems_ok_iff [r]).mpr ?_
    intro x hx
    rcases List.mem_singleton.mp hx with rfl
    exact hgood
  refine ⟨him, ?_⟩
  unfold mkForm
  rw [him]
  simp only [List.map_cons, List.map_nil, List.zip_cons_cons, List.zip_nil_right,
    doLayout, layoutStep]
  rw [setResponse_bad cfg r.item _ hbad]

/-- Witness for C10 at the `textbox` record. -/
theorem claim10_witness :
    importItems [recBadType] = .ok [recBadType] ∧
    mkForm cfgC [recBadType] [1/10] = .error .unboundLocal :=
  claim10_late_layout_failure cfgC recBadType (1/10) (by decide) (by decide)

end PsyForm
